import Mathlib

/-
  Verification of the zaphod log-format template engine.

  The definitions below are a shallow embedding of the C++ sources:
  - src/engine/src/core/logger.cpp  (validateFormatParameters, Logger methods)
  - src/engine/include/core/logger.h (Logger, Format, LogLevel, LogDestination)
  - src/engine/include/util/flags.h  (Flags template, instantiated at LogLevel)

  Machine integers (uint32_t in Flags) are modelled as Nat; all shift amounts
  that occur are below 32, so no wraparound arises and the Nat model is exact.
  The std::unordered_map parameter map is modelled as an association list:
  only find (lookup) and size (length, compared with 0) are used by the code.
-/

set_option maxRecDepth 4096

namespace ZaphodLog

/-- Validation failure kinds. The C++ validator returns a bare bool; each
return-false site carries a source comment naming the violated rule, and the
constructors below are those comments (they also match the error kinds the
specification lists in its error-handling section). -/
inductive VErr where
  | duplicateToken
  | illegalDynamicMarker
  | illegalOverride
  | emptyTokenName
  | missingParameterBinding
  | reservedNameMisuse
  | missingMessageToken
  | badFormatIndex
deriving DecidableEq, Repr

/-- One regex match of the placeholder pattern
((backslash)?)%\x7b(!)?(\*)?([A-Z0-9_]*)\x7d% :
`esc` is capture group 1 (the leading backslash), `bang` group 2 (the
override marker), `star` group 3 (the dynamic marker), `name` group 4. -/
structure PMatch where
  esc : Bool
  bang : Bool
  star : Bool
  name : String
deriving DecidableEq, Repr

/-- Character class of the name capture group: the regex
(?:[A-Z]*[0-9]*_*)* accepts exactly the strings over [A-Z0-9_]. -/
def isNameChar (c : Char) : Bool :=
  ( 'A' ≤ c && c ≤ 'Z') || ( '0' ≤ c && c ≤ '9') || c = '_'

/-- Attempt to match %\x7b(!)?(\*)?name\x7d% at the head of the character
list; on success return the two marker flags, the name, and the remaining
characters after the match. Greedy matching of the name group consumes the
maximal run of name characters, and no shorter run can be followed by the
closing brace, so the match is deterministic. -/
def tryMatchCore (cs : List Char) : Option (Bool × Bool × String × List Char) :=
  match cs with
  | c1 :: c2 :: r0 =>
    if c1 = '%' && c2 = '\x7b' then
      let pBang : Bool × List Char :=
        match r0 with
        | c :: r => if c = '!' then (true, r) else (false, c :: r)
        | [] => (false, [])
      let pStar : Bool × List Char :=
        match pBang.2 with
        | c :: r => if c = '*' then (true, r) else (false, c :: r)
        | [] => (false, [])
      let nm := pStar.2.takeWhile isNameChar
      match pStar.2.dropWhile isNameChar with
      | d1 :: d2 :: r4 =>
        if d1 = '\x7d' && d2 = '%' then some (pBang.1, pStar.1, String.mk nm, r4) else none
      | _ => none
    else none
  | _ => none

/-- Worker for the iterator over regex matches. The fuel argument only
serves termination: every step either consumes one character or an entire
match (at least four characters), so fuel equal to the length of the list
is never exhausted. An escaped match is one whose leading backslash
immediately precedes a core match; the leftmost-match rule of
std::sregex_iterator makes the backslash position win over the percent
position, which the first branch mirrors. -/
def findMatchesGo : Nat → List Char → List PMatch
  | 0, _ => []
  | _ + 1, [] => []
  | fuel + 1, c :: cs =>
    if c = '\\' then
      match tryMatchCore cs with
      | some (b, s, nm, rest) => ⟨true, b, s, nm⟩ :: findMatchesGo fuel rest
      | none => findMatchesGo fuel cs
    else
      match tryMatchCore (c :: cs) with
      | some (b, s, nm, rest) => ⟨false, b, s, nm⟩ :: findMatchesGo fuel rest
      | none => findMatchesGo fuel cs

/-- All placeholder matches of the format string, leftmost first,
non-overlapping, continuing after the end of each match: the behaviour of
std::sregex_iterator with the placeholder pattern of logger.cpp line 11. -/
def findMatches (cs : List Char) : List PMatch :=
  findMatchesGo cs.length cs

/-- Membership in the reserved special token set (logger.cpp line 14). -/
def isSpecialName (n : String) : Bool :=
  n = "MESSAGE" || n = "LEVEL" || n = "TIME"

/-- The scan loop of validateFormatParameters (logger.cpp lines 20 to 91):
walk the matches left to right, growing the three token lists, failing on
the first violated rule. The nesting of conditionals mirrors the source;
the branch shared by an overridden non-dynamic special token and a plain
non-reserved token (source lines 82 to 90, reached by fallthrough) appears
twice because Lean has no fallthrough. -/
def scanLoop : List PMatch → List String → List String → List String →
    Except VErr (List String × List String × List String)
  | [], st, dy, sp => .ok (st, dy, sp)
  | m :: ms, st, dy, sp =>
    if m.esc then
      scanLoop ms st dy sp            -- Skip escaped placeholders
    else if isSpecialName m.name then
      if m.star then
        if m.bang then
          if !(st.contains m.name) && !(sp.contains m.name) then
            if !(dy.contains m.name) then
              scanLoop ms st (dy ++ [m.name]) sp   -- Add dynamic token
            else
              .error .duplicateToken               -- Duplicate token found
          else
            .error .duplicateToken                 -- Duplicate token found
        else
          .error .illegalDynamicMarker  -- star not allowed for special tokens without the override
      else
        if !m.bang then
          if !(sp.contains m.name) then
            scanLoop ms st dy (sp ++ [m.name])     -- Add special token
          else
            .error .duplicateToken                 -- Duplicate token found
        else
          -- fallthrough to the shared static-token tail (source lines 82 to 90)
          if !(dy.contains m.name) then
            if !(st.contains m.name) then
              scanLoop ms (st ++ [m.name]) dy sp
            else
              .error .duplicateToken               -- Duplicate token found
          else
            .error .duplicateToken                 -- Duplicate token found
    else
      if m.bang then
        .error .illegalOverride         -- bang not allowed for non special tokens
      else if m.star then
        if !(st.contains m.name) then
          if !(dy.contains m.name) then
            scanLoop ms st (dy ++ [m.name]) sp     -- Add dynamic token
          else
            .error .duplicateToken                 -- Duplicate token found
        else
          .error .duplicateToken                   -- Duplicate token found
      else
        -- the shared static-token tail (source lines 82 to 90)
        if !(dy.contains m.name) then
          if !(st.contains m.name) then
            scanLoop ms (st ++ [m.name]) dy sp
          else
            .error .duplicateToken                 -- Duplicate token found
        else
          .error .duplicateToken                   -- Duplicate token found

/-- The post-scan loop of validateFormatParameters (logger.cpp lines 93 to
119): walk the static tokens, tracking whether MESSAGE was seen among them,
checking each against the parameter map; after the loop, succeed exactly
when the MESSAGE flag was set. -/
def checkStatics : List String → List (String × String) → Bool → Except VErr Unit
  | [], _, msgIn =>
    if msgIn then .ok () else .error .missingMessageToken  -- MESSAGE placeholder is mandatory
  | p :: rest, params, msgIn =>
    if p.length = 0 then
      .error .emptyTokenName            -- Empty placeholder found
    else
      -- isMessageInFormat is set before the parameter checks; its updated
      -- value (if p = MESSAGE then true else msgIn) is threaded to the
      -- recursive calls below
      if (params.lookup p).isNone then
        .error .missingParameterBinding  -- Placeholder not found in parameters
      else if params.length ≠ 0 then
        if p = "MESSAGE" then
          .error .reservedNameMisuse     -- MESSAGE should not be in parameters
        else if p = "LEVEL" then
          .error .reservedNameMisuse     -- LEVEL should not be in parameters
        else if p = "TIME" then
          .error .reservedNameMisuse     -- TIME should not be in parameters
        else
          checkStatics rest params (if p = "MESSAGE" then true else msgIn)
      else
        checkStatics rest params (if p = "MESSAGE" then true else msgIn)

/-- validateFormatParameters with the validation failures labelled: the scan
loop over all placeholder matches, then the post-scan static-token loop.
On success the classified (static, dynamic, special) token lists are
returned. -/
def classifyE (format : String) (parameters : List (String × String)) :
    Except VErr (List String × List String × List String) :=
  match scanLoop (findMatches format.data) [] [] [] with
  | .error e => .error e
  | .ok (st, dy, sp) =>
    match checkStatics st parameters false with
    | .error e => .error e
    | .ok _ => .ok (st, dy, sp)

/-- bool validateFormatParameters(format, parameters) of logger.cpp lines 9
to 120: true on the single success path, false at every labelled failure. -/
def validateFormatParameters (format : String) (parameters : List (String × String)) : Bool :=
  match classifyE format parameters with
  | .ok _ => true
  | .error _ => false

/-- enum class LogLevel : uint32_t of logger.h: the severity enumeration,
first member the sentinel EMPTY with underlying value zero. -/
inductive LogLevel where
  | EMPTY
  | INFO
  | DEBUG
  | WARN
  | ERROR
  | FATAL
deriving DecidableEq, Repr

/-- The underlying uint32_t value of each enumerator (static_cast in
flags.h). -/
def LogLevel.toNat : LogLevel → Nat
  | .EMPTY => 0
  | .INFO => 1
  | .DEBUG => 2
  | .WARN => 3
  | .ERROR => 4
  | .FATAL => 5

/-- The value of ~x on a uint32_t: complement inside 32 bits. -/
def mask32 : Nat := 2 ^ 32 - 1

/-- The Flags template of flags.h instantiated at LogLevel (the
LogLevelFlags typedef of logger.h). The uint32_t field is modelled as a
Nat; every shift amount produced by LogLevel.toNat is below 32, so the
model is exact. -/
structure Flags where
  flags : Nat
deriving DecidableEq, Repr

/-- Flags(std::vector<Flag>) constructor (flags.h lines 19 to 23): start
from zero and OR in the single-bit mask of every listed level. -/
def Flags.ofList (ls : List LogLevel) : Flags :=
  ⟨ls.foldl (fun acc l => acc ||| (1 <<< l.toNat)) 0⟩

/-- setFlag(flag, enable) of flags.h lines 34 to 40. -/
def Flags.setFlag (f : Flags) (l : LogLevel) (enable : Bool) : Flags :=
  if enable then ⟨f.flags ||| (1 <<< l.toNat)⟩
  else ⟨f.flags &&& (mask32 ^^^ (1 <<< l.toNat))⟩

/-- unsetFlag(flag) of flags.h line 50. -/
def Flags.unsetFlag (f : Flags) (l : LogLevel) : Flags :=
  ⟨f.flags &&& (mask32 ^^^ (1 <<< l.toNat))⟩

/-- updateFlags(other) of flags.h line 27: bitwise union. -/
def Flags.updateFlags (f g : Flags) : Flags :=
  ⟨f.flags ||| g.flags⟩

/-- checkFlag(flag) of flags.h line 58: single-level membership test. -/
def Flags.checkFlag (f : Flags) (l : LogLevel) : Bool :=
  f.flags &&& (1 <<< l.toNat) != 0

/-- reset() of flags.h line 60: back to the all-clear state. -/
def Flags.reset (_f : Flags) : Flags := ⟨0⟩

/-- enum class LogDestination of logger.h. -/
inductive LogDestination where
  | CONSOLE
  | FILE
deriving DecidableEq, Repr

/-- Logger::Format as used by logger.cpp: a format string and the static
parameter map. -/
structure Format where
  formatString : String
  parameters : List (String × String)
deriving DecidableEq, Repr

/-- The Logger state: the format list, the destination set and the level
flag set of logger.h. -/
structure Logger where
  formats : List Format
  destinations : List LogDestination
  logLevelFlags : Flags
deriving DecidableEq, Repr

/-- Logger::addFormat (logger.cpp lines 155 to 159): the validator is
called, its returned Bool is discarded, and the format is appended
unconditionally. -/
def Logger.addFormat (l : Logger) (f : Format) : Logger :=
  let _ := validateFormatParameters f.formatString f.parameters
  { l with formats := l.formats ++ [f] }

/-- Logger::setFormat (logger.cpp lines 161 to 166): the validator is
called and its result discarded, then m_formats[index] is written through
the unchecked vector operator[]. In bounds the element is replaced; out of
bounds the C++ behaviour is undefined and no error reaches the caller,
modelled here as none. -/
def Logger.setFormat (l : Logger) (index : Nat) (f : Format) : Option Logger :=
  let _ := validateFormatParameters f.formatString f.parameters
  if index < l.formats.length then some { l with formats := l.formats.set index f }
  else none

/-- Modelled from the spec: Logger::removeFormat is declared in logger.h
(and in the unnamed header) but no definition exists anywhere in the
repository sources. The spec requires the index to be in bounds, with an
out-of-bounds index a reportable error, and removal of the format at the
index otherwise. -/
def Logger.removeFormat (l : Logger) (index : Nat) : Except VErr Logger :=
  if index < l.formats.length then .ok { l with formats := l.formats.eraseIdx index }
  else .error .badFormatIndex

/-- Logger::updateFormatParameter (logger.cpp lines 168 to 179):
m_formats.at(index) returns a copy (the local is not a reference), the copy
is mutated when the token is already a key of its parameter map, and the
copy is then dropped; out-of-range at() throws, modelled as none. The
logger itself is returned unchanged on the in-bounds path, exactly as the
source leaves m_formats untouched. -/
def Logger.updateFormatParameter (l : Logger) (index : Nat) (token value : String) :
    Option Logger :=
  match l.formats.get? index with
  | none => none
  | some fmt =>
    let _localCopy :=
      if (fmt.parameters.lookup token).isSome then
        { fmt with parameters := fmt.parameters.map fun kv => if kv.1 = token then (kv.1, value) else kv }
      else fmt
    some l

/- Helper lemmas -/

/-- The post-scan loop started with the message flag clear never succeeds:
only a static MESSAGE token can set the flag, and the very iteration that
sets it also rejects (MESSAGE absent from the map is a missing binding;
MESSAGE present in the map is reserved-name misuse). -/
theorem checkStatics_false_err (st : List String) :
    ∀ params : List (String × String), ∃ e, checkStatics st params false = Except.error e := by
  induction st with
  | nil => intro params; exact ⟨.missingMessageToken, rfl⟩
  | cons p rest ih =>
    intro params
    simp only [checkStatics]
    by_cases hlen : p.length = 0
    · rw [if_pos hlen]
      exact ⟨_, rfl⟩
    · rw [if_neg hlen]
      by_cases hlk : (params.lookup p).isNone = true
      · rw [if_pos hlk]
        exact ⟨_, rfl⟩
      · rw [if_neg hlk]
        have hne : params.length ≠ 0 := by
          intro h0
          have hemp : params = [] := List.length_eq_zero.mp h0
          subst hemp
          exact hlk rfl
        rw [if_pos hne]
        by_cases hm : p = "MESSAGE"
        · rw [if_pos hm]
          exact ⟨_, rfl⟩
        · rw [if_neg hm]
          by_cases hl : p = "LEVEL"
          · rw [if_pos hl]
            exact ⟨_, rfl⟩
          · rw [if_neg hl]
            by_cases ht : p = "TIME"
            · rw [if_pos ht]
              exact ⟨_, rfl⟩
            · rw [if_neg ht, if_neg hm]
              exact ih params

/-- Escaped matches are skipped by the scan loop without touching its
state. -/
theorem scanLoop_skip_escaped (pre : List PMatch) (ms : List PMatch)
    (st dy sp : List String) (h : ∀ x ∈ pre, x.esc = true) :
    scanLoop (pre ++ ms) st dy sp = scanLoop ms st dy sp := by
  induction pre generalizing st dy sp with
  | nil => rfl
  | cons x xs ih =>
    have hx : x.esc = true := h x (List.mem_cons_self x xs)
    rw [List.cons_append]
    simp only [scanLoop, hx, if_true]
    exact ih st dy sp fun y hy => h y (List.mem_cons_of_mem x hy)

/-- A reserved name with the dynamic marker and no override marker fails the
scan at once, whatever the current state. -/
theorem scanLoop_special_dynamic_err (m : PMatch) (ms : List PMatch)
    (st dy sp : List String) (hesc : m.esc = false) (hsp : isSpecialName m.name = true)
    (hstar : m.star = true) (hbang : m.bang = false) :
    scanLoop (m :: ms) st dy sp = Except.error .illegalDynamicMarker := by
  simp only [scanLoop, hesc, hsp, hstar, hbang]
  rfl

/-- A non-reserved name with the override marker fails the scan at once,
whatever the current state. -/
theorem scanLoop_nonspecial_bang_err (m : PMatch) (ms : List PMatch)
    (st dy sp : List String) (hesc : m.esc = false) (hsp : isSpecialName m.name = false)
    (hbang : m.bang = true) :
    scanLoop (m :: ms) st dy sp = Except.error .illegalOverride := by
  simp only [scanLoop, hesc, hsp, hbang]
  rfl

/-- Bitwise test against a single-bit mask is the bit test. -/
theorem and_two_pow_ne_zero (x n : Nat) : (x &&& 2 ^ n != 0) = x.testBit n := by
  cases h : x.testBit n with
  | false =>
    have hz : x &&& 2 ^ n = 0 := by
      apply Nat.eq_of_testBit_eq
      intro i
      rw [Nat.testBit_and, Nat.zero_testBit]
      by_cases hni : n = i
      · subst hni; rw [h]; rfl
      · rw [Nat.testBit_two_pow_of_ne hni, Bool.and_false]
    simp [hz]
  | true =>
    have hbit : (x &&& 2 ^ n).testBit n = true := by
      rw [Nat.testBit_and, h, Nat.testBit_two_pow_self, Bool.and_true]
    have hnz : x &&& 2 ^ n ≠ 0 := by
      intro h0
      rw [h0, Nat.zero_testBit] at hbit
      cases hbit
    simp [hnz]

/-- checkFlag is the bit test at the enumerator value. -/
theorem checkFlag_testBit (f : Flags) (l : LogLevel) :
    f.checkFlag l = f.flags.testBit l.toNat := by
  unfold Flags.checkFlag
  rw [Nat.one_shiftLeft, and_two_pow_ne_zero]

/-- Every bit of the 32-bit complement mask below position 32 is set. -/
theorem mask32_testBit (i : Nat) (h : i < 32) : mask32.testBit i = true := by
  unfold mask32
  rw [Nat.testBit_two_pow_sub_one]
  simp [h]

/-- Every enumerator value is below the 32-bit width. -/
theorem toNat_lt_32 (l : LogLevel) : l.toNat < 32 := by
  cases l <;> decide

/-- Distinct enumerators have distinct underlying values. -/
theorem toNat_ne_of_ne {a b : LogLevel} (h : a ≠ b) : a.toNat ≠ b.toNat := by
  cases a <;> cases b <;> first
    | exact absurd rfl h
    | decide

/- Claim theorems -/

/-- Claim C1 (code bug witness): classifying the example format with the
empty parameter map does not validate. The scan itself succeeds and places
LEVEL, TIME and MESSAGE in the special list (MESSAGE included, against the
claim), but the final check derives the message-present flag from the
static list alone, so the validator rejects with a missing MESSAGE token
and returns false. -/
theorem c1_example_format_rejected :
    scanLoop (findMatches "[%{LEVEL}%][%{TIME}%]: %{MESSAGE}%".data) [] [] [] =
      Except.ok ([], [], ["LEVEL", "TIME", "MESSAGE"])
    ∧ classifyE "[%{LEVEL}%][%{TIME}%]: %{MESSAGE}%" [] = Except.error .missingMessageToken
    ∧ validateFormatParameters "[%{LEVEL}%][%{TIME}%]: %{MESSAGE}%" [] = false :=
  ⟨rfl, rfl, rfl⟩

/-- Claim C2: the classifier rejects every input. The message-present flag
is only ever set while walking the static token list, and the iteration
that would set it always rejects first, so no format string and no
parameter map validates. -/
theorem c2_validator_rejects_everything (format : String)
    (parameters : List (String × String)) :
    validateFormatParameters format parameters = false := by
  unfold validateFormatParameters classifyE
  cases hscan : scanLoop (findMatches format.data) [] [] [] with
  | error e => rfl
  | ok triple =>
    obtain ⟨st, dy, sp⟩ := triple
    obtain ⟨e, he⟩ := checkStatics_false_err st parameters
    simp [he]

/-- Claim C3 (code bug witness): addFormat calls the validator, discards
its result, and appends the format unconditionally; here an invalid format
(empty string, rejected by the validator) is nevertheless registered. -/
theorem c3_addFormat_ignores_validation :
    validateFormatParameters "" [] = false
    ∧ (Logger.addFormat ⟨[], [], ⟨0⟩⟩ ⟨"", []⟩).formats = [⟨"", []⟩] :=
  ⟨rfl, rfl⟩

/-- Claim C4 counterexample: constructing a flag set from the list
containing only EMPTY, or setting the EMPTY flag on the empty flag set,
yields the flag value 1 (bit zero set), not the empty (reset) flag set. -/
theorem c4_counterexample :
    Flags.ofList [LogLevel.EMPTY] ≠ Flags.mk 0
    ∧ (Flags.mk 0).setFlag LogLevel.EMPTY true ≠ Flags.mk 0 := by
  constructor <;> decide

/-- Claim C4 amended: constructing from the list containing only EMPTY, or
setting EMPTY on the empty flag set, sets exactly bit zero: the flag value
becomes 1, the EMPTY test holds, every other enumerator still tests false,
and setting EMPTY never changes the membership of any other enumerator. -/
theorem c4_empty_level_sets_bit_zero :
    (Flags.ofList [LogLevel.EMPTY]).flags = 1
    ∧ ((Flags.mk 0).setFlag LogLevel.EMPTY true).flags = 1
    ∧ (Flags.ofList [LogLevel.EMPTY]).checkFlag LogLevel.EMPTY = true
    ∧ (∀ l : LogLevel, l ≠ LogLevel.EMPTY →
        (Flags.ofList [LogLevel.EMPTY]).checkFlag l = false)
    ∧ (∀ (f : Flags) (l : LogLevel), l ≠ LogLevel.EMPTY →
        (f.setFlag LogLevel.EMPTY true).checkFlag l = f.checkFlag l) := by
  refine ⟨rfl, rfl, rfl, ?_, ?_⟩
  · intro l hl
    cases l <;> first
      | exact absurd rfl hl
      | rfl
  · intro f l hl
    rw [checkFlag_testBit, checkFlag_testBit]
    show (f.flags ||| 1 <<< LogLevel.EMPTY.toNat).testBit l.toNat = f.flags.testBit l.toNat
    rw [Nat.one_shiftLeft, Nat.testBit_or,
      Nat.testBit_two_pow_of_ne (toNat_ne_of_ne (Ne.symm hl)), Bool.or_false]

/-- Claim C4 amended, witness at a concrete input: INFO is not selected
after constructing from the list containing only EMPTY. -/
theorem c4_witness :
    (Flags.ofList [LogLevel.EMPTY]).checkFlag LogLevel.INFO = false :=
  c4_empty_level_sets_bit_zero.2.2.2.1 LogLevel.INFO (by decide)

/-- Claim C5 counterexample: a format that contains the reserved
dynamic-marker placeholder without override, preceded by a duplicated
static token, fails with a duplicate-token error, not with the
illegal-dynamic-marker error the claim promises for every such format. -/
theorem c5_counterexample :
    findMatches "%{A}%%{A}%%{*LEVEL}%".data =
      [⟨false, false, false, "A"⟩, ⟨false, false, false, "A"⟩, ⟨false, false, true, "LEVEL"⟩]
    ∧ classifyE "%{A}%%{A}%%{*LEVEL}%" [] = Except.error .duplicateToken
    ∧ VErr.duplicateToken ≠ VErr.illegalDynamicMarker :=
  ⟨rfl, rfl, by decide⟩

/-- Claim C5 amended: whenever a placeholder with the dynamic marker but no
override marker on a reserved name is preceded only by escaped
placeholders, classification fails with the illegal-dynamic-marker error
(an earlier violating placeholder can preempt with a different error, and
by the global rejection property classification fails in every case). -/
theorem c5_reserved_dynamic_marker (s : String) (params : List (String × String))
    (pre : List PMatch) (m : PMatch) (rest : List PMatch)
    (hfind : findMatches s.data = pre ++ m :: rest)
    (hpre : ∀ x ∈ pre, x.esc = true)
    (hesc : m.esc = false) (hsp : isSpecialName m.name = true)
    (hstar : m.star = true) (hbang : m.bang = false) :
    classifyE s params = Except.error .illegalDynamicMarker := by
  unfold classifyE
  rw [hfind, scanLoop_skip_escaped pre (m :: rest) [] [] [] hpre,
    scanLoop_special_dynamic_err m rest [] [] [] hesc hsp hstar hbang]

/-- Claim C5 amended, witness at a concrete input. -/
theorem c5_witness : classifyE "%{*LEVEL}%" [] = Except.error .illegalDynamicMarker :=
  c5_reserved_dynamic_marker "%{*LEVEL}%" [] [] ⟨false, false, true, "LEVEL"⟩ []
    rfl (fun x hx => absurd hx (List.not_mem_nil x)) rfl rfl rfl rfl

/-- Claim C6 counterexample: the allegedly contradictory example format
fails with a missing-parameter error, not with the duplicate-token error
the claim requires; the escaped LEVEL placeholder is skipped, so LEVEL
occurs only once (overridden, hence static). -/
theorem c6_counterexample :
    classifyE "%{TIME}% [\\%{LEVEL}%]: %{MESSAGE}% %{*P1}% %{!LEVEL}%" [] =
      Except.error .missingParameterBinding
    ∧ VErr.missingParameterBinding ≠ VErr.duplicateToken :=
  ⟨rfl, by decide⟩

/-- Claim C6 amended: classifying the example format always fails, but
never with a duplicate token: the scan succeeds with LEVEL static (the
escaped occurrence is skipped), and the post-scan check rejects with a
missing parameter binding when LEVEL is not bound in the map and with
reserved-name misuse when it is. -/
theorem c6_example_format_always_fails (params : List (String × String)) :
    classifyE "%{TIME}% [\\%{LEVEL}%]: %{MESSAGE}% %{*P1}% %{!LEVEL}%" params =
      Except.error .missingParameterBinding
    ∨ classifyE "%{TIME}% [\\%{LEVEL}%]: %{MESSAGE}% %{*P1}% %{!LEVEL}%" params =
      Except.error .reservedNameMisuse := by
  have hscan : scanLoop
      (findMatches "%{TIME}% [\\%{LEVEL}%]: %{MESSAGE}% %{*P1}% %{!LEVEL}%".data) [] [] [] =
      Except.ok (["LEVEL"], ["P1"], ["TIME", "MESSAGE"]) := rfl
  unfold classifyE
  rw [hscan]
  simp only [checkStatics]
  cases hlk : (params.lookup "LEVEL").isNone
  · have hne : params.length ≠ 0 := by
      intro h0
      have hemp : params = [] := List.length_eq_zero.mp h0
      subst hemp
      simp at hlk
    right
    simp [hne]
    rw [if_neg (by decide : ¬(("LEVEL" : String).length = 0))]
  · left
    simp
    rw [if_neg (by decide : ¬(("LEVEL" : String).length = 0))]

/-- Claim C7 counterexample: a format that contains the override-marked
non-reserved placeholder, preceded by a duplicated static token, fails with
a duplicate-token error, not with the illegal-override error the claim
promises for every such format. -/
theorem c7_counterexample :
    findMatches "%{A}%%{A}%%{!CUSTOM}%".data =
      [⟨false, false, false, "A"⟩, ⟨false, false, false, "A"⟩, ⟨false, true, false, "CUSTOM"⟩]
    ∧ classifyE "%{A}%%{A}%%{!CUSTOM}%" [] = Except.error .duplicateToken
    ∧ VErr.duplicateToken ≠ VErr.illegalOverride :=
  ⟨rfl, rfl, by decide⟩

/-- Claim C7 amended: whenever an override-marked placeholder with a
non-reserved name is preceded only by escaped placeholders, classification
fails with the illegal-override error (an earlier violating placeholder can
preempt with a different error, and by the global rejection property
classification fails in every case). -/
theorem c7_nonreserved_override (s : String) (params : List (String × String))
    (pre : List PMatch) (m : PMatch) (rest : List PMatch)
    (hfind : findMatches s.data = pre ++ m :: rest)
    (hpre : ∀ x ∈ pre, x.esc = true)
    (hesc : m.esc = false) (hsp : isSpecialName m.name = false)
    (hbang : m.bang = true) :
    classifyE s params = Except.error .illegalOverride := by
  unfold classifyE
  rw [hfind, scanLoop_skip_escaped pre (m :: rest) [] [] [] hpre,
    scanLoop_nonspecial_bang_err m rest [] [] [] hesc hsp hbang]

/-- Claim C7 amended, witness at a concrete input. -/
theorem c7_witness : classifyE "%{!CUSTOM}%" [] = Except.error .illegalOverride :=
  c7_nonreserved_override "%{!CUSTOM}%" [] [] ⟨false, true, false, "CUSTOM"⟩ []
    rfl (fun x hx => absurd hx (List.not_mem_nil x)) rfl rfl rfl

/-- Claim C8 (code bug witness): with no stored formats, setFormat at index
zero writes through the unchecked vector subscript, which out of bounds is
undefined behaviour with no error reported to the caller (modelled as
none); the spec-modelled removeFormat reports the bad index as the spec
demands. -/
theorem c8_setFormat_unchecked :
    Logger.setFormat ⟨[], [], ⟨0⟩⟩ 0 ⟨"", []⟩ = none
    ∧ Logger.removeFormat ⟨[], [], ⟨0⟩⟩ 0 = Except.error .badFormatIndex :=
  ⟨rfl, rfl⟩

/-- Claim C9: the level flag set obeys set algebra: setting a level makes
its test true; unsetting it makes its test false and leaves every other
level unchanged; the update of two flag sets tests as the disjunction of
the two tests (union); and after reset every level tests false. -/
theorem c9_flag_set_algebra (f g : Flags) (l : LogLevel) :
    ((f.setFlag l true).checkFlag l = true)
    ∧ ((f.unsetFlag l).checkFlag l = false)
    ∧ (∀ l2 : LogLevel, l2 ≠ l → (f.unsetFlag l).checkFlag l2 = f.checkFlag l2)
    ∧ ((f.updateFlags g).checkFlag l = (f.checkFlag l || g.checkFlag l))
    ∧ ((f.reset).checkFlag l = false) := by
  refine ⟨?_, ?_, ?_, ?_, ?_⟩
  · rw [checkFlag_testBit]
    show (f.flags ||| 1 <<< l.toNat).testBit l.toNat = true
    rw [Nat.one_shiftLeft, Nat.testBit_or, Nat.testBit_two_pow_self, Bool.or_true]
  · rw [checkFlag_testBit]
    show (f.flags &&& (mask32 ^^^ 1 <<< l.toNat)).testBit l.toNat = false
    rw [Nat.one_shiftLeft, Nat.testBit_and, Nat.testBit_xor,
      mask32_testBit l.toNat (toNat_lt_32 l), Nat.testBit_two_pow_self]
    simp
  · intro l2 hne
    rw [checkFlag_testBit, checkFlag_testBit]
    show (f.flags &&& (mask32 ^^^ 1 <<< l.toNat)).testBit l2.toNat = f.flags.testBit l2.toNat
    rw [Nat.one_shiftLeft, Nat.testBit_and, Nat.testBit_xor,
      mask32_testBit l2.toNat (toNat_lt_32 l2),
      Nat.testBit_two_pow_of_ne (toNat_ne_of_ne (Ne.symm hne))]
    rw [Bool.true_xor, Bool.not_false, Bool.and_true]
  · rw [checkFlag_testBit, checkFlag_testBit, checkFlag_testBit]
    show (f.flags ||| g.flags).testBit l.toNat = _
    rw [Nat.testBit_or]
  · rw [checkFlag_testBit]
    show Nat.testBit 0 l.toNat = false
    rw [Nat.zero_testBit]

/-- Claim C9, witness at a concrete input: unsetting INFO on the flag value
6 leaves the DEBUG membership unchanged. -/
theorem c9_witness :
    ((Flags.mk 6).unsetFlag LogLevel.INFO).checkFlag LogLevel.DEBUG =
      (Flags.mk 6).checkFlag LogLevel.DEBUG :=
  (c9_flag_set_algebra (Flags.mk 6) (Flags.mk 0) LogLevel.INFO).2.2.1 LogLevel.DEBUG (by decide)

/-- Claim C10: for every in-bounds index, updateFormatParameter returns the
logger unchanged: the source mutates only a local copy of the stored
format. -/
theorem c10_updateFormatParameter_pure (l : Logger) (index : Nat) (token value : String)
    (h : index < l.formats.length) :
    l.updateFormatParameter index token value = some l := by
  have hg : ∃ fmt, l.formats.get? index = some fmt := by
    cases hq : l.formats.get? index with
    | none => exact absurd (List.get?_eq_none.mp hq) (Nat.not_le.mpr h)
    | some fmt => exact ⟨fmt, rfl⟩
  obtain ⟨fmt, hg⟩ := hg
  unfold Logger.updateFormatParameter
  rw [hg]

/-- Claim C10, witness at a concrete input. -/
theorem c10_witness :
    Logger.updateFormatParameter ⟨[⟨"f", []⟩], [], ⟨0⟩⟩ 0 "T" "v" =
      some ⟨[⟨"f", []⟩], [], ⟨0⟩⟩ :=
  c10_updateFormatParameter_pure ⟨[⟨"f", []⟩], [], ⟨0⟩⟩ 0 "T" "v" (by decide)

end ZaphodLog
